import Mathlib

/-!
Shallow embedding of the cross-dex-arbitrage service (src/src/index.ts).

JavaScript numbers are modelled as exact rationals (ℚ); every numeric
literal in the source is exactly representable, and the operations used
(add, sub, mul, compare) are the rational ones.  Strings are Lean strings;
`toLowerCase` is `String.toLower`.  The zod input schema is modelled over a
small JSON value type; zod's default behaviour of stripping unknown keys is
kept.
-/

namespace CrossDexArb

/-- One arbitrage opportunity, mirroring the `ArbitrageOpportunity`
interface of src/src/index.ts (lines 55-67). -/
structure ArbitrageOpportunity where
  token_symbol : String
  token_address : Option String
  buy_dex : String
  sell_dex : String
  buy_price : ℚ
  sell_price : ℚ
  profit_percentage : ℚ
  profit_usd_per_1k : ℚ
  gas_cost_usd : ℚ
  net_profit_usd : ℚ
  executable : Bool
deriving Repr, DecidableEq

/-- The per-chain gas-cost table `CHAIN_GAS_COSTS` (index.ts lines 69-76),
as a partial map from chain id to USD cost. -/
def CHAIN_GAS_COSTS (chainId : ℚ) : Option ℚ :=
  if chainId = 1 then some 5.0          -- Ethereum mainnet
  else if chainId = 8453 then some 0.01 -- Base
  else if chainId = 42161 then some 0.15 -- Arbitrum
  else if chainId = 10 then some 0.05   -- Optimism
  else if chainId = 137 then some 0.02  -- Polygon
  else if chainId = 56 then some 0.08   -- BSC
  else none

/-- `CHAIN_GAS_COSTS[chainId] || 2.5` (index.ts line 90).  JavaScript `||`
falls through to the default when the looked-up value is absent or falsy
(0 would be falsy; the table holds no zero). -/
def gasCostFor (chainId : ℚ) : ℚ :=
  match CHAIN_GAS_COSTS chainId with
  | some v => if v = 0 then 2.5 else v
  | none => 2.5

/-- The first entry of `mockOpportunities` (index.ts lines 95-107). -/
def usdcOpp (gasCost : ℚ) : ArbitrageOpportunity :=
  { token_symbol := "USDC"
  , token_address := some "0xA0b86991c6218b36c1d19D4a2e9Eb0cE3606eB48"
  , buy_dex := "Uniswap V3"
  , sell_dex := "SushiSwap"
  , buy_price := 0.998
  , sell_price := 1.002
  , profit_percentage := 0.4
  , profit_usd_per_1k := 4.0
  , gas_cost_usd := gasCost
  , net_profit_usd := 4.0 - gasCost
  , executable := decide (0 < 4.0 - gasCost) }

/-- The second entry of `mockOpportunities` (index.ts lines 108-120). -/
def wethOpp (gasCost : ℚ) : ArbitrageOpportunity :=
  { token_symbol := "WETH"
  , token_address := some "0xC02aaA39b223FE8D0A0e5C4F27eAD9083C756Cc2"
  , buy_dex := "Curve"
  , sell_dex := "Balancer"
  , buy_price := 2485.5
  , sell_price := 2497.8
  , profit_percentage := 0.49
  , profit_usd_per_1k := 4.9
  , gas_cost_usd := gasCost
  , net_profit_usd := 4.9 - gasCost
  , executable := decide (0 < 4.9 - gasCost) }

/-- The third entry of `mockOpportunities` (index.ts lines 121-133). -/
def usdtOpp (gasCost : ℚ) : ArbitrageOpportunity :=
  { token_symbol := "USDT"
  , token_address := some "0xdAC17F958D2ee523a2206206994597C13D831ec7"
  , buy_dex := "Uniswap V2"
  , sell_dex := "Pancakeswap"
  , buy_price := 0.9985
  , sell_price := 1.0005
  , profit_percentage := 0.2
  , profit_usd_per_1k := 2.0
  , gas_cost_usd := gasCost
  , net_profit_usd := 2.0 - gasCost
  , executable := decide (0 < 2.0 - gasCost) }

/-- The hard-coded `mockOpportunities` list (index.ts lines 94-134),
parameterised by the resolved gas cost. -/
def mockOpportunities (gasCost : ℚ) : List ArbitrageOpportunity :=
  [usdcOpp gasCost, wethOpp gasCost, usdtOpp gasCost]

/-- JavaScript `toLowerCase`, modelled character by character.  For the
ASCII token addresses handled here this agrees with the source. -/
def jsToLower (s : String) : String :=
  ⟨s.data.map Char.toLower⟩

/-- The token-address predicate of the second filter (index.ts lines
143-147): `opp.token_address?.toLowerCase() === addr.toLowerCase()`;
an absent `token_address` compares unequal to every string. -/
def addrMatches (tokenAddress : Option String) (addr : String) : Bool :=
  match tokenAddress with
  | some t => jsToLower t == jsToLower addr
  | none => false

/-- `findArbitrage` (index.ts lines 78-151): resolve the gas cost, build
the mock list, filter by minimum profit percentage, then optionally filter
by the supplied token addresses. -/
def findArbitrage (chainId minProfitPct : ℚ)
    (tokenAddresses : Option (List String)) : List ArbitrageOpportunity :=
  let gasCost := gasCostFor chainId
  let opportunities := (mockOpportunities gasCost).filter
    (fun opp => decide (minProfitPct ≤ opp.profit_percentage))
  match tokenAddresses with
  | some addrs =>
      if addrs.length > 0 then
        opportunities.filter (fun opp =>
          addrs.any (fun addr => addrMatches opp.token_address addr))
      else opportunities
  | none => opportunities

/-- A JSON value, as far as the input schema needs to distinguish. -/
inductive JVal where
  | num (q : ℚ)
  | str (s : String)
  | arr (xs : List JVal)
  | jbool (b : Bool)
  | jnull
deriving Repr

/-- A JSON object: an association list of field names to values. -/
def Request := List (String × JVal)

/-- Field lookup in a JSON object. -/
def lookupField (req : Request) (k : String) : Option JVal :=
  (req.find? (fun p => p.1 == k)).map Prod.snd

/-- The parsed input accepted by `ArbitrageInputSchema` (index.ts lines
6-10): `chain_id` and `min_profit_pct` are required numbers,
`token_addresses` is an optional array of strings. -/
structure ArbInput where
  chain_id : ℚ
  min_profit_pct : ℚ
  token_addresses : Option (List String)
deriving Repr, DecidableEq

/-- Read a JSON array as a list of strings, failing on any non-string. -/
def asStringList : List JVal → Option (List String)
  | [] => some []
  | JVal.str s :: rest => (asStringList rest).map (fun l => s :: l)
  | _ :: _ => none

/-- `ArbitrageInputSchema.parse` (zod): requires numeric `chain_id` and
`min_profit_pct`; `token_addresses`, when present, must be an array of
strings; unknown keys are stripped. -/
def parseArbInput (req : Request) : Option ArbInput :=
  match lookupField req "chain_id", lookupField req "min_profit_pct" with
  | some (JVal.num c), some (JVal.num m) =>
      match lookupField req "token_addresses" with
      | none => some ⟨c, m, none⟩
      | some (JVal.arr xs) =>
          (asStringList xs).map (fun l => ⟨c, m, some l⟩)
      | some _ => none
  | _, _ => none

/-- The response body built by the entrypoint handler (index.ts lines
160-174): the opportunities, their count, and a wall-clock timestamp. -/
structure ArbOutput where
  opportunities : List ArbitrageOpportunity
  total_found : ℕ
  timestamp : String
deriving Repr, DecidableEq

/-- The entrypoint handler body (index.ts lines 160-174): call
`findArbitrage` on the validated fields and wrap the result.  `now` stands
for `new Date().toISOString()`, the only run-dependent value. -/
def handler (i : ArbInput) (now : String) : ArbOutput :=
  let opportunities := findArbitrage i.chain_id i.min_profit_pct i.token_addresses
  { opportunities := opportunities
  , total_found := opportunities.length
  , timestamp := now }

/-- The internal API route (index.ts lines 181-218) after authentication:
validate the body with the schema, and only on success dispatch to
`findArbitrage`; a validation failure is a 500 response (`none`), and no
detection runs. -/
def runRequest (req : Request) (now : String) : Option ArbOutput :=
  (parseArbInput req).map (fun i => handler i now)

/-- Every value of the gas-cost resolution is nonnegative: the table holds
only positive constants and the default is 2.5. -/
lemma gasCostFor_nonneg (c : ℚ) : 0 ≤ gasCostFor c := by
  simp only [gasCostFor, CHAIN_GAS_COSTS]
  split_ifs <;> norm_num

/-- Membership in the mock list is membership in one of its three
entries. -/
lemma mem_mockOpportunities {g : ℚ} {o : ArbitrageOpportunity}
    (h : o ∈ mockOpportunities g) :
    o = usdcOpp g ∨ o = wethOpp g ∨ o = usdtOpp g := by
  simpa [mockOpportunities] using h

/-- Structure of `findArbitrage` output: every returned opportunity comes
from the mock list, passed the minimum-profit filter, and (when a
non-empty address list was supplied) passed the address filter. -/
lemma mem_findArbitrage {c m : ℚ} {t : Option (List String)}
    {o : ArbitrageOpportunity} (h : o ∈ findArbitrage c m t) :
    o ∈ mockOpportunities (gasCostFor c) ∧ m ≤ o.profit_percentage ∧
      ∀ addrs, t = some addrs → addrs ≠ [] →
        addrs.any (fun a => addrMatches o.token_address a) = true := by
  cases t with
  | none =>
      simp only [findArbitrage] at h
      obtain ⟨hm, hp⟩ := List.mem_filter.mp h
      exact ⟨hm, of_decide_eq_true hp, fun addrs habs => by cases habs⟩
  | some addrs =>
      simp only [findArbitrage] at h
      by_cases hlen : addrs.length > 0
      · rw [if_pos hlen] at h
        obtain ⟨h1, ha⟩ := List.mem_filter.mp h
        obtain ⟨hm, hp⟩ := List.mem_filter.mp h1
        refine ⟨hm, of_decide_eq_true hp, ?_⟩
        intro addrs2 heq _
        cases heq
        exact ha
      · rw [if_neg hlen] at h
        obtain ⟨hm, hp⟩ := List.mem_filter.mp h
        refine ⟨hm, of_decide_eq_true hp, ?_⟩
        intro addrs2 heq hne
        cases heq
        exact absurd (List.eq_nil_of_length_eq_zero (Nat.eq_zero_of_not_pos hlen)) hne

/-- Parsing a JSON array of string literals yields exactly those
strings. -/
lemma asStringList_map_str (l : List String) :
    asStringList (l.map JVal.str) = some l := by
  induction l with
  | nil => rfl
  | cons s rest ih => simp [asStringList, ih]

/-- On Base (chain 8453) the table resolves to a gas cost of one cent. -/
lemma gasCostFor_8453 : gasCostFor 8453 = 0.01 := by
  norm_num [gasCostFor, CHAIN_GAS_COSTS]

/-- On Ethereum mainnet (chain 1) the table resolves to five dollars. -/
lemma gasCostFor_1 : gasCostFor 1 = 5 := by
  norm_num [gasCostFor, CHAIN_GAS_COSTS]

/-- With threshold 0 and no address filter, chain 8453 returns the whole
mock list at gas cost 0.01. -/
lemma findArbitrage_8453_all :
    findArbitrage 8453 0 none = mockOpportunities 0.01 := by
  simp only [findArbitrage, gasCostFor_8453]
  norm_num [mockOpportunities, usdcOpp, wethOpp, usdtOpp, List.filter]

/-- With threshold 0 and no address filter, chain 1 returns the whole
mock list at gas cost 5. -/
lemma findArbitrage_1_all :
    findArbitrage 1 0 none = mockOpportunities 5 := by
  simp only [findArbitrage, gasCostFor_1]
  norm_num [mockOpportunities, usdcOpp, wethOpp, usdtOpp, List.filter]

/-- C1 counterexample: on chain 8453 (gas 0.01) with threshold 0, the
first reported opportunity carries `net_profit_usd = 3.99`, while the
claimed formula gross − gas − fee (30 bps on the $1000 basis, i.e. $3)
would give $0.99; the DEX fee is not subtracted by the code. -/
theorem C1_counterexample :
    ((findArbitrage 8453 0 none).map (fun o => o.net_profit_usd)).head? =
      some 3.99 ∧
    ((findArbitrage 8453 0 none).map
      (fun o => o.profit_usd_per_1k - o.gas_cost_usd - 30 / 10000 * 1000)).head? =
      some 0.99 ∧
    (3.99 : ℚ) ≠ 0.99 := by
  refine ⟨?_, ?_, by norm_num⟩ <;>
    rw [findArbitrage_8453_all] <;>
    norm_num [mockOpportunities, usdcOpp, wethOpp, usdtOpp]

/-- C1 (amended): for every opportunity reported by `findArbitrage`, the
net profit equals the gross per-$1000 profit minus the gas cost only; no
DEX-fee term is subtracted. -/
theorem C1_net_profit_formula (c m : ℚ) (t : Option (List String))
    (o : ArbitrageOpportunity) (h : o ∈ findArbitrage c m t) :
    o.net_profit_usd = o.profit_usd_per_1k - o.gas_cost_usd := by
  obtain ⟨hm, -, -⟩ := mem_findArbitrage h
  rcases mem_mockOpportunities hm with h1 | h1 | h1 <;> subst h1 <;>
    simp [usdcOpp, wethOpp, usdtOpp]

/-- C1 witness: the WETH opportunity on chain 8453 satisfies the amended
formula, 4.89 = 4.90 − 0.01. -/
theorem C1_witness :
    (wethOpp 0.01).net_profit_usd =
      (wethOpp 0.01).profit_usd_per_1k - (wethOpp 0.01).gas_cost_usd :=
  C1_net_profit_formula 8453 0 none (wethOpp 0.01)
    (by rw [findArbitrage_8453_all]; simp [mockOpportunities])

/-- C2 counterexample: on chain 8453 with threshold 0 the returned net
profits are [3.99, 4.89, 1.99], which is not in non-increasing order (the
second exceeds the first), so the head is not the most profitable route. -/
theorem C2_counterexample :
    (findArbitrage 8453 0 none).map (fun o => o.net_profit_usd) =
      [3.99, 4.89, 1.99] ∧
    ¬ List.Sorted (fun a b => b ≤ a)
        ((findArbitrage 8453 0 none).map (fun o => o.net_profit_usd)) := by
  have hl : (findArbitrage 8453 0 none).map (fun o => o.net_profit_usd) =
      [3.99, 4.89, 1.99] := by
    rw [findArbitrage_8453_all]
    norm_num [mockOpportunities, usdcOpp, wethOpp, usdtOpp]
  refine ⟨hl, ?_⟩
  rw [hl]
  intro hs
  have h49 : (4.89 : ℚ) ≤ 3.99 :=
    List.rel_of_sorted_cons hs 4.89 (by simp)
  norm_num at h49

/-- C2 (amended): `findArbitrage` performs no sorting: its output is an
order-preserving sublist of the hard-coded mock list (filtering only), so
routes appear in source order, not by descending net profit. -/
theorem C2_source_order (c m : ℚ) (t : Option (List String)) :
    List.Sublist (findArbitrage c m t) (mockOpportunities (gasCostFor c)) := by
  cases t with
  | none =>
      simp only [findArbitrage]
      exact List.filter_sublist _
  | some addrs =>
      simp only [findArbitrage]
      by_cases hlen : addrs.length > 0
      · rw [if_pos hlen]
        exact (List.filter_sublist _).trans (List.filter_sublist _)
      · rw [if_neg hlen]
        exact List.filter_sublist _

/-- C3 counterexample: the scenario opportunity (buy 0.998, sell 1.002,
gas 0.01 on chain 8453) is reported with net profit $3.99, not the
claimed ≈ $0.99. -/
theorem C3_counterexample :
    (findArbitrage 8453 0 none).head? = some (usdcOpp 0.01) ∧
    (usdcOpp 0.01).buy_price = 0.998 ∧
    (usdcOpp 0.01).sell_price = 1.002 ∧
    (usdcOpp 0.01).gas_cost_usd = 0.01 ∧
    (usdcOpp 0.01).net_profit_usd = 3.99 ∧
    (3.99 : ℚ) ≠ 0.99 := by
  refine ⟨?_, by norm_num [usdcOpp], by norm_num [usdcOpp],
    by norm_num [usdcOpp], by norm_num [usdcOpp], by norm_num⟩
  rw [findArbitrage_8453_all]
  rfl

/-- C3 (amended): in the scenario buy 0.998 / sell 1.002 with gas $0.01
(chain 8453), the reported gross spread is 0.4% (40 bps) and $4.00 per
$1000, the net profit is $4.00 − $0.01 = $3.99 (no DEX fee is charged),
and the opportunity is marked executable. -/
theorem C3_scenario :
    (findArbitrage 8453 0 none).head? = some (usdcOpp 0.01) ∧
    (usdcOpp 0.01).buy_price = 0.998 ∧
    (usdcOpp 0.01).sell_price = 1.002 ∧
    (usdcOpp 0.01).profit_percentage = 0.4 ∧
    (usdcOpp 0.01).profit_usd_per_1k = 4.0 ∧
    (usdcOpp 0.01).gas_cost_usd = 0.01 ∧
    (usdcOpp 0.01).net_profit_usd = 4.0 - 0.01 ∧
    (usdcOpp 0.01).executable = true := by
  refine ⟨?_, by norm_num [usdcOpp], by norm_num [usdcOpp],
    by norm_num [usdcOpp], by norm_num [usdcOpp], by norm_num [usdcOpp],
    by norm_num [usdcOpp], by norm_num [usdcOpp]⟩
  rw [findArbitrage_8453_all]
  rfl

/-- C7: detection is deterministic; two runs of the handler on the same
validated input produce the same opportunities in the same order and the
same count, whatever the wall-clock timestamps of the two runs are. -/
theorem C7_deterministic (i : ArbInput) (now1 now2 : String) :
    (handler i now1).opportunities = (handler i now2).opportunities ∧
    (handler i now1).total_found = (handler i now2).total_found := by
  simp [handler]

/-- C8: for every opportunity reported by `findArbitrage`, the net profit
never exceeds the gross per-$1000 profit, because the subtracted gas cost
is nonnegative. -/
theorem C8_net_le_gross (c m : ℚ) (t : Option (List String))
    (o : ArbitrageOpportunity) (h : o ∈ findArbitrage c m t) :
    o.net_profit_usd ≤ o.profit_usd_per_1k := by
  obtain ⟨hm, -, -⟩ := mem_findArbitrage h
  have hg := gasCostFor_nonneg c
  rcases mem_mockOpportunities hm with h1 | h1 | h1 <;> subst h1 <;>
    simp [usdcOpp, wethOpp, usdtOpp] <;> linarith

/-- C8 witness: the USDC opportunity on chain 8453 has net 3.99 ≤ gross
4.00. -/
theorem C8_witness :
    (usdcOpp 0.01).net_profit_usd ≤ (usdcOpp 0.01).profit_usd_per_1k :=
  C8_net_le_gross 8453 0 none (usdcOpp 0.01)
    (by rw [findArbitrage_8453_all]; simp [mockOpportunities])

/-- With threshold 0.3 and the USDC address supplied in upper case, chain
8453 returns exactly the USDC opportunity. -/
lemma findArbitrage_8453_addr :
    findArbitrage 8453 0.3
      (some ["0XA0B86991C6218B36C1D19D4A2E9EB0CE3606EB48"]) =
      [usdcOpp 0.01] := by
  have h1 : addrMatches (some "0xA0b86991c6218b36c1d19D4a2e9Eb0cE3606eB48")
      "0XA0B86991C6218B36C1D19D4A2E9EB0CE3606EB48" = true := rfl
  have h2 : addrMatches (some "0xC02aaA39b223FE8D0A0e5C4F27eAD9083C756Cc2")
      "0XA0B86991C6218B36C1D19D4A2E9EB0CE3606EB48" = false := rfl
  simp only [findArbitrage, gasCostFor_8453]
  norm_num [mockOpportunities, usdcOpp, wethOpp, usdtOpp, List.filter,
    List.any, h1, h2]

/-- C4 counterexample: with chain 1 and a 100% threshold no route remains,
yet the request completes normally with an empty list and count 0; there
is no NoRoutesAvailable failure. -/
theorem C4_counterexample :
    runRequest [("chain_id", JVal.num 1), ("min_profit_pct", JVal.num 100)]
        "t" =
      some { opportunities := [], total_found := 0, timestamp := "t" } := by
  have hp : parseArbInput
      [("chain_id", JVal.num 1), ("min_profit_pct", JVal.num 100)] =
      some ⟨1, 100, none⟩ := rfl
  have hf : findArbitrage 1 100 none = [] := by
    simp only [findArbitrage, gasCostFor_1]
    norm_num [mockOpportunities, usdcOpp, wethOpp, usdtOpp, List.filter]
  simp [runRequest, hp, handler, hf]

/-- C4 (amended): once validation succeeds the detection operation never
fails: the response is always a normal output, and when no route remains
it is the empty report with `total_found = 0`, not an error. -/
theorem C4_no_failure (req : Request) (i : ArbInput) (now : String)
    (h : parseArbInput req = some i) :
    runRequest req now = some (handler i now) ∧
    (findArbitrage i.chain_id i.min_profit_pct i.token_addresses = [] →
      runRequest req now =
        some { opportunities := [], total_found := 0, timestamp := now }) := by
  constructor
  · simp [runRequest, h]
  · intro hf
    simp [runRequest, h, handler, hf]

/-- C4 witness: the chain-1, 100%-threshold request validates and gets a
normal (empty) response. -/
theorem C4_witness :
    runRequest [("chain_id", JVal.num 1), ("min_profit_pct", JVal.num 100)]
        "t" =
      some (handler ⟨1, 100, none⟩ "t") :=
  (C4_no_failure
    [("chain_id", JVal.num 1), ("min_profit_pct", JVal.num 100)]
    ⟨1, 100, none⟩ "t" rfl).1

/-- C5 counterexample: a request carrying `amount_in = 0` passes
validation (the schema has no `amount_in` field) and dispatch runs,
returning all three opportunities. -/
theorem C5_counterexample :
    parseArbInput [("chain_id", JVal.num 1), ("min_profit_pct", JVal.num 0),
        ("amount_in", JVal.num 0)] = some ⟨1, 0, none⟩ ∧
    (runRequest [("chain_id", JVal.num 1), ("min_profit_pct", JVal.num 0),
        ("amount_in", JVal.num 0)] "t").map (fun r => r.total_found) =
      some 3 := by
  have hp : parseArbInput
      [("chain_id", JVal.num 1), ("min_profit_pct", JVal.num 0),
        ("amount_in", JVal.num 0)] = some ⟨1, 0, none⟩ := rfl
  refine ⟨hp, ?_⟩
  simp [runRequest, hp, handler, findArbitrage_1_all, mockOpportunities]

/-- C5 (amended): the input schema has no `amount_in` field: an
`amount_in` entry of any value in the request body is stripped and never
affects validation, so `amount_in = 0` is not rejected. -/
theorem C5_amount_in_ignored (v : JVal) (req : Request) :
    parseArbInput (("amount_in", v) :: req) = parseArbInput req := by
  have h1 : ("amount_in" == "chain_id") = false := rfl
  have h2 : ("amount_in" == "min_profit_pct") = false := rfl
  have h3 : ("amount_in" == "token_addresses") = false := rfl
  simp [parseArbInput, lookupField, List.find?, h1, h2, h3]

/-- C6 counterexample: a request with exactly the fields token_in,
token_out, amount_in and chain_ids is rejected by the schema, which
requires chain_id and min_profit_pct instead. -/
theorem C6_counterexample :
    parseArbInput [("token_in", JVal.str "0xTokenIn"),
      ("token_out", JVal.str "0xTokenOut"),
      ("amount_in", JVal.num 1000),
      ("chain_ids", JVal.arr [JVal.num 1, JVal.num 8453])] = none := rfl

/-- C6 (amended): the entry point consumes the shape
`{chain_id: number, min_profit_pct: number, token_addresses?: string[]}`;
requests of that shape are accepted, the optional address array is parsed
elementwise, and the validated fields are the ones handed to
`findArbitrage`. -/
theorem C6_request_shape (c m : ℚ) (addrs : List String) (now : String) :
    parseArbInput [("chain_id", JVal.num c), ("min_profit_pct", JVal.num m)] =
      some ⟨c, m, none⟩ ∧
    parseArbInput [("chain_id", JVal.num c), ("min_profit_pct", JVal.num m),
        ("token_addresses", JVal.arr (addrs.map JVal.str))] =
      some ⟨c, m, some addrs⟩ ∧
    runRequest [("chain_id", JVal.num c), ("min_profit_pct", JVal.num m)]
        now =
      some { opportunities := findArbitrage c m none
           , total_found := (findArbitrage c m none).length
           , timestamp := now } := by
  have e1 : ("chain_id" == "chain_id") = true := rfl
  have e2 : ("chain_id" == "min_profit_pct") = false := rfl
  have e3 : ("min_profit_pct" == "min_profit_pct") = true := rfl
  have e4 : ("chain_id" == "token_addresses") = false := rfl
  have e5 : ("min_profit_pct" == "token_addresses") = false := rfl
  have e6 : ("token_addresses" == "token_addresses") = true := rfl
  refine ⟨rfl, ?_, ?_⟩
  · simp [parseArbInput, lookupField, List.find?, e1, e2, e3, e4, e5, e6,
      asStringList_map_str]
  · have hp : parseArbInput
        [("chain_id", JVal.num c), ("min_profit_pct", JVal.num m)] =
        some ⟨c, m, none⟩ := rfl
    simp [runRequest, hp, handler]

/-- C9: every returned opportunity meets the minimum profit threshold,
and when a non-empty address list is supplied its token address is
present and matches one of the supplied addresses up to lower-casing. -/
theorem C9_filters (c m : ℚ) (t : Option (List String))
    (o : ArbitrageOpportunity) (h : o ∈ findArbitrage c m t) :
    m ≤ o.profit_percentage ∧
      ∀ addrs, t = some addrs → addrs ≠ [] →
        ∃ a ∈ addrs, ∃ ta, o.token_address = some ta ∧
          jsToLower ta = jsToLower a := by
  obtain ⟨-, hp, hfilter⟩ := mem_findArbitrage h
  refine ⟨hp, fun addrs heq hne => ?_⟩
  obtain ⟨a, ha, hmatch⟩ := List.any_eq_true.mp (hfilter addrs heq hne)
  refine ⟨a, ha, ?_⟩
  cases hta : o.token_address with
  | none =>
      rw [hta] at hmatch
      exact absurd hmatch (by simp [addrMatches])
  | some ta =>
      rw [hta] at hmatch
      simp only [addrMatches] at hmatch
      exact ⟨ta, rfl, eq_of_beq hmatch⟩

/-- C9 witness: filtering chain 8453 at threshold 0.3 by the upper-cased
USDC address returns the USDC opportunity, whose stored address matches
the supplied one case-insensitively. -/
theorem C9_witness :
    ∃ a ∈ ["0XA0B86991C6218B36C1D19D4A2E9EB0CE3606EB48"], ∃ ta,
      (usdcOpp 0.01).token_address = some ta ∧ jsToLower ta = jsToLower a :=
  (C9_filters 8453 0.3
      (some ["0XA0B86991C6218B36C1D19D4A2E9EB0CE3606EB48"]) (usdcOpp 0.01)
      (by rw [findArbitrage_8453_addr]; simp)).2
    ["0XA0B86991C6218B36C1D19D4A2E9EB0CE3606EB48"] rfl (by simp)

/-- C10: gas resolution is total — a chain id outside the table defaults
to 2.5 USD — and every opportunity in one response carries the gas cost
resolved for the requested chain (hence the same value throughout). -/
theorem C10_gas_default_uniform (c m : ℚ) (t : Option (List String))
    (o : ArbitrageOpportunity) :
    (CHAIN_GAS_COSTS c = none → gasCostFor c = 2.5) ∧
    (o ∈ findArbitrage c m t → o.gas_cost_usd = gasCostFor c) := by
  constructor
  · intro h
    simp [gasCostFor, h]
  · intro h
    obtain ⟨hm, -, -⟩ := mem_findArbitrage h
    rcases mem_mockOpportunities hm with h1 | h1 | h1 <;> subst h1 <;>
      simp [usdcOpp, wethOpp, usdtOpp]

/-- C10 witness: chain 999 is not in the table and resolves to 2.5, and
the USDC opportunity of a chain-1 response carries chain 1's gas cost. -/
theorem C10_witness :
    gasCostFor 999 = 2.5 ∧ (usdcOpp 5).gas_cost_usd = gasCostFor 1 :=
  ⟨(C10_gas_default_uniform 999 0 none (usdcOpp 2.5)).1
      (by norm_num [CHAIN_GAS_COSTS]),
   (C10_gas_default_uniform 1 0 none (usdcOpp 5)).2
      (by rw [findArbitrage_1_all]; simp [mockOpportunities])⟩

end CrossDexArb
